import Mathlib

/-!
Verification of the dual-store memory service
(`services/persistent-memory-server`): a shallow embedding of the
record lifecycle (create / retrieve / soft-delete), the hybrid search
orchestrator, and the two non-semantic listing paths, together with
theorems settling the specification's claims about them.

Modelling conventions:
* UUIDs and timestamps are `Nat` (opaque identifiers / instants).
* Python floats carrying the [0,1] scalars (emotion intensity,
  importance, similarity scores) are `ℚ`; none of the claims depends on
  floating-point rounding.
* The relational store is a `List MemoryRecord` (rows of the
  `memories` table); the vector index is a `List VecEntry` (points of
  the `aurora-memories-text` collection).
* The embedding model and the index's similarity scoring are opaque
  functions (`embed : String → List ℚ`, `sim : List ℚ → ℚ`), exactly as
  the spec treats `embed`; the index's `search` is modelled by its
  adapter contract: the top-`limit` entries passing the payload filter,
  ranked by descending similarity, equal scores kept in index order.
* Fallible external calls (embedding provider readiness, the vector
  upsert / delete) are modelled by explicit success booleans; an
  uncaught Python exception inside a FastAPI handler surfaces as the
  handler's HTTP-500 branch, modelled as `Except.error .serverError`.
-/

namespace Enclave

/-- A row of the `memories` table (the columns the claims touch;
`keywords`, the personal-edition booleans and the annotation payloads
are carried by the code but never read by any claim's operation). -/
structure MemoryRecord where
  memory_id : Nat
  interface : String
  context : String
  with_whom : Option String
  what_happened : String
  experience_type : String
  emotion_primary : String
  emotion_intensity : ℚ
  importance_to_me : ℚ
  text_content : String
  privacy_realm : String
  timestamp : Nat
  created_at : Nat
  updated_at : Nat
  modalities : List String
  session_id : Nat
  should_forget : Bool
  accessed_count : Nat
  last_accessed : Nat
deriving DecidableEq

/-- The filterable payload stored next to each embedding
(`metadata` dict built in `create_memory`, server.py lines 413-421). -/
structure VecPayload where
  interface : String
  experience_type : String
  emotion_primary : String
  emotion_intensity : ℚ
  importance_to_me : ℚ
  privacy_realm : String
  timestamp : Nat
deriving DecidableEq

/-- A point of the Qdrant text collection: id, stored vector, payload. -/
structure VecEntry where
  memory_id : Nat
  embedding : List ℚ
  payload : VecPayload
deriving DecidableEq

/-- Combined state of the two stores. -/
structure Stores where
  db : List MemoryRecord
  vec : List VecEntry
deriving DecidableEq

/-- The fields of the `MemoryCreate` request model that reach the two
stores (server.py lines 69-112). -/
structure MemoryCreateInput where
  interface : String
  context : String
  with_whom : Option String
  what_happened : String
  experience_type : String
  emotion_primary : String
  emotion_intensity : ℚ
  importance_to_me : ℚ
  importance_reasons : List String
  text_content : String
  visual_path : Option String
  audio_path : Option String
  video_path : Option String
  privacy_realm : String
  session_id : Option Nat
deriving DecidableEq

/-- The `MemorySearch` request model (server.py lines 136-145). -/
structure MemorySearch where
  query : String
  interface : Option String
  experience_type : Option String
  emotion : Option String
  min_importance : Option ℚ
  privacy_realm : Option String
  limit : Nat
deriving DecidableEq

/-- Error kinds observable from the handlers: pydantic's rejection of a
malformed request (HTTP 422), a missing resource (HTTP 404), and an
uncaught exception mapped to HTTP 500 by the handler's `except` block. -/
inductive ApiError where
  | validation
  | notFound
  | serverError
deriving DecidableEq

/-- Pydantic validation of `MemoryCreate`: the only value constraints
declared on the model are `ge=0.0, le=1.0` on `emotion_intensity` and
`importance_to_me` (server.py lines 84, 89); `text_content` and
`privacy_realm` are unconstrained strings. -/
def validateMemoryCreate (m : MemoryCreateInput) : Bool :=
  0 ≤ m.emotion_intensity && m.emotion_intensity ≤ 1 &&
    (0 ≤ m.importance_to_me && m.importance_to_me ≤ 1)

/-- Python truthiness of an optional string argument: the code guards
each optional string filter with a plain `if value:`, so a missing or
empty string means the filter is not applied. -/
def strFilterActive : Option String → Option String
  | none => none
  | some s => if s.isEmpty then none else some s

/-- Helper for the substring scan underlying `likeContains`. -/
def charsContain : List Char → List Char → Bool
  | [], needle => needle.isEmpty
  | c :: t, needle => needle.isPrefixOf (c :: t) || charsContain t needle

/-- Case-insensitive substring test, modelling the SQL pattern
ILIKE %needle% used for the context and with-whom filters. -/
def likeContains (needle hay : String) : Bool :=
  charsContain hay.toLower.data needle.toLower.data

-- ━━━━━━━━━━━━━ Relational store (database_service.py) ━━━━━━━━━━━━━

/-- The SELECT underlying `database_service.get_memory` (lines
219-234): a point lookup by `memory_id` alone — there is no
`should_forget` condition in the query. -/
def dbFind (db : List MemoryRecord) (id : Nat) : Option MemoryRecord :=
  db.find? (fun r => r.memory_id == id)

/-- The UPDATE bookkeeping half of `database_service.get_memory`
(lines 238-246): bump the access counter and last-access time of the
addressed row. -/
def bumpAccess (db : List MemoryRecord) (id now : Nat) : List MemoryRecord :=
  db.map (fun r =>
    if r.memory_id == id then
      { r with accessed_count := r.accessed_count + 1, last_accessed := now }
    else r)

/-- `database_service.get_memory` (lines 216-253): run the access
bump, then the point SELECT; returns the possibly-updated table and
the found row (`None` only when the id is absent — a tombstoned row is
returned like any other). -/
def get_memory (db : List MemoryRecord) (id now : Nat) :
    List MemoryRecord × Option MemoryRecord :=
  let db2 := bumpAccess db id now
  (db2, dbFind db2 id)

/-- `database_service.soft_delete_memory` (lines 256-276): UPDATE
setting `should_forget = TRUE` and `updated_at`, conditioned on
`memory_id = id AND should_forget = FALSE`; the returned Bool reports
whether any row was updated (RETURNING produced a row). -/
def soft_delete_memory (db : List MemoryRecord) (id now : Nat) :
    List MemoryRecord × Bool :=
  (db.map (fun r =>
      if r.memory_id == id && !r.should_forget then
        { r with should_forget := true, updated_at := now }
      else r),
   db.any (fun r => r.memory_id == id && !r.should_forget))

/-- The optional filters accepted by `database_service.list_memories`
(the keys of its `filters` dict, lines 440-469). -/
structure MemoryFilters where
  interface : Option String
  context : Option String
  emotion_primary : Option String
  experience_type : Option String
  min_importance : Option ℚ
  with_whom : Option String
deriving DecidableEq

/-- The WHERE clause of `database_service.list_memories` (lines
436-471): `should_forget = FALSE` always, AND-composed with each
supplied filter (interface, emotion and experience type by equality,
context and with-whom by case-insensitive substring, importance by a
lower bound). A NULL `with_whom` column never matches an ILIKE
pattern. -/
def matchesFilters (f : MemoryFilters) (r : MemoryRecord) : Bool :=
  !r.should_forget &&
  (match f.interface with | none => true | some v => r.interface == v) &&
  (match f.context with | none => true | some v => likeContains v r.context) &&
  (match f.emotion_primary with | none => true | some v => r.emotion_primary == v) &&
  (match f.experience_type with | none => true | some v => r.experience_type == v) &&
  (match f.min_importance with | none => true | some v => decide (v ≤ r.importance_to_me)) &&
  (match f.with_whom with
   | none => true
   | some v => match r.with_whom with | none => false | some w => likeContains v w)

/-- Descending-timestamp comparison used for ORDER BY timestamp DESC;
the sort is stable, leaving equal timestamps in table order. -/
def tsDesc (a b : MemoryRecord) : Prop := b.timestamp ≤ a.timestamp

instance : DecidableRel tsDesc := fun _ _ => inferInstanceAs (Decidable (_ ≤ _))

/-- `database_service.list_memories` (lines 418-504): filter, order by
timestamp descending, then OFFSET and LIMIT. -/
def list_memories (db : List MemoryRecord) (limit offset : Nat)
    (f : MemoryFilters) : List MemoryRecord :=
  ((((db.filter (matchesFilters f)).insertionSort tsDesc).drop offset).take limit)

/-- `database_service.get_recent_memories` (lines 636-696): WHERE
`importance_to_me >= min_importance`, AND-composed with the optional
interface and privacy-realm equality filters (guarded by Python
truthiness), ordered by timestamp descending, LIMIT applied. Note the
query has no `should_forget` condition. -/
def get_recent_memories (db : List MemoryRecord) (limit : Nat)
    (min_importance : ℚ) (interface privacy_realm : Option String) :
    List MemoryRecord :=
  ((db.filter (fun r =>
      decide (min_importance ≤ r.importance_to_me) &&
      (match strFilterActive interface with | none => true | some v => r.interface == v) &&
      (match strFilterActive privacy_realm with | none => true | some v => r.privacy_realm == v))
    ).insertionSort tsDesc).take limit

-- ━━━━━━━━━━━━━━━ Vector index (vector_service.py) ━━━━━━━━━━━━━━━━

/-- The metadata filter pushed into the index query by
`search_text_embeddings` (lines 119-136): equality on interface and
privacy realm (each applied only when truthy) and a lower bound on
importance (applied whenever not None). -/
def vecFilter (interface privacy_realm : Option String)
    (min_importance : Option ℚ) (p : VecPayload) : Bool :=
  (match strFilterActive interface with | none => true | some v => p.interface == v) &&
  (match strFilterActive privacy_realm with | none => true | some v => p.privacy_realm == v) &&
  (match min_importance with | none => true | some q => decide (q ≤ p.importance_to_me))

/-- Descending-similarity comparison on stored points for an opaque
similarity scoring `sim` of each stored vector against the fixed query
vector of one search call. -/
def simDesc (sim : List ℚ → ℚ) (a b : VecEntry) : Prop :=
  sim b.embedding ≤ sim a.embedding

instance (sim : List ℚ → ℚ) : DecidableRel (simDesc sim) :=
  fun _ _ => inferInstanceAs (Decidable (_ ≤ _))

/-- The Qdrant adapter contract for `client.search` (lines 139-145):
the `limit` highest-scoring stored points among those passing the
payload filter, in descending score order; equal scores stay in index
order — the index applies no timestamp tie-break. -/
def qdrantSearch (index : List VecEntry) (sim : List ℚ → ℚ)
    (filt : VecPayload → Bool) (limit : Nat) : List VecEntry :=
  ((index.filter (fun e => filt e.payload)).insertionSort (simDesc sim)).take limit

/-- A formatted hit as returned by `search_text_embeddings`
(lines 148-154): memory id, similarity score, payload. -/
structure VecHit where
  memory_id : Nat
  score : ℚ
  payload : VecPayload
deriving DecidableEq

/-- `vector_service.search_text_embeddings` (lines 100-158): build the
filter from the three forwarded fields, query the index, and format
each hit. -/
def search_text_embeddings (index : List VecEntry) (sim : List ℚ → ℚ)
    (limit : Nat) (interface privacy_realm : Option String)
    (min_importance : Option ℚ) : List VecHit :=
  (qdrantSearch index sim (vecFilter interface privacy_realm min_importance) limit).map
    (fun e => ⟨e.memory_id, sim e.embedding, e.payload⟩)

/-- `vector_service.store_text_embedding` (lines 62-97): upsert of the
point keyed by the memory id (an existing point with the same id is
replaced). -/
def store_text_embedding (index : List VecEntry) (id : Nat)
    (v : List ℚ) (p : VecPayload) : List VecEntry :=
  index.filter (fun e => e.memory_id != id) ++ [⟨id, v, p⟩]

/-- `vector_service.delete_memory_vectors` (lines 161-180): the point
delete is wrapped in try/except — on failure it logs a warning and
returns normally, leaving the stale point in place; it never raises. -/
def delete_memory_vectors (index : List VecEntry) (id : Nat)
    (deleteOk : Bool) : List VecEntry :=
  if deleteOk then index.filter (fun e => e.memory_id != id) else index

-- ━━━━━━━━━━━━━━━━━━ API handlers (server.py) ━━━━━━━━━━━━━━━━━━━━━

/-- The `MemoryResponse` API model (server.py lines 115-133). -/
structure MemoryResponse where
  memory_id : Nat
  interface : String
  context : String
  what_happened : String
  experience_type : String
  emotion_primary : String
  emotion_intensity : ℚ
  importance_to_me : ℚ
  timestamp : Nat
  created_at : Nat
  modalities : List String
  privacy_realm : String
deriving DecidableEq

/-- Projection of a stored row to the `MemoryResponse` fields. -/
def toMemoryResponse (m : MemoryRecord) : MemoryResponse :=
  { memory_id := m.memory_id, interface := m.interface, context := m.context,
    what_happened := m.what_happened, experience_type := m.experience_type,
    emotion_primary := m.emotion_primary, emotion_intensity := m.emotion_intensity,
    importance_to_me := m.importance_to_me, timestamp := m.timestamp,
    created_at := m.created_at, modalities := m.modalities,
    privacy_realm := m.privacy_realm }

/-- Modalities derived in `database_service.create_memory`
(lines 124-131) from which auxiliary media paths were supplied. -/
def mkModalities (i : MemoryCreateInput) : List String :=
  ["text"] ++ (if (strFilterActive i.visual_path).isSome then ["visual"] else []) ++
    (if (strFilterActive i.audio_path).isSome then ["audio"] else []) ++
    (if (strFilterActive i.video_path).isSome then ["video"] else [])

/-- The row INSERTed by `database_service.create_memory` (lines
121-196): fresh id and timestamps, a session resolved to the supplied
one or a freshly created one, `should_forget` defaulting to false. -/
def mkRecord (i : MemoryCreateInput) (newId sid ts now : Nat) : MemoryRecord :=
  { memory_id := newId, interface := i.interface, context := i.context,
    with_whom := i.with_whom, what_happened := i.what_happened,
    experience_type := i.experience_type, emotion_primary := i.emotion_primary,
    emotion_intensity := i.emotion_intensity, importance_to_me := i.importance_to_me,
    text_content := i.text_content, privacy_realm := i.privacy_realm,
    timestamp := ts, created_at := now, updated_at := now,
    modalities := mkModalities i, session_id := i.session_id.getD sid,
    should_forget := false, accessed_count := 0, last_accessed := 0 }

/-- The filterable payload copied next to the embedding in the create
handler (server.py lines 413-421). -/
def mkPayload (i : MemoryCreateInput) (ts : Nat) : VecPayload :=
  { interface := i.interface, experience_type := i.experience_type,
    emotion_primary := i.emotion_primary, emotion_intensity := i.emotion_intensity,
    importance_to_me := i.importance_to_me, privacy_realm := i.privacy_realm,
    timestamp := ts }

/-- The create handler (server.py lines 363-453). Pydantic validation
runs before the handler (HTTP 422). `embedOk` models whether the SBERT
call succeeds (it raises when the model is not loaded); `vecOk` models
whether the Qdrant upsert succeeds. An exception from either call is
caught by the except block of the handler and mapped to HTTP 500; the
relational INSERT commits per statement and is never rolled back, so a
failed upsert leaves the new row in the relational store while the
caller sees the 500 error. -/
def create_memory (st : Stores) (input : MemoryCreateInput)
    (embed : String → List ℚ) (embedOk vecOk : Bool)
    (newId sid ts now : Nat) : Stores × Except ApiError MemoryResponse :=
  if !validateMemoryCreate input then (st, .error .validation)
  else if !embedOk then (st, .error .serverError)
  else
    let row := mkRecord input newId sid ts now
    let db2 := st.db ++ [row]
    if vecOk then
      ({ db := db2,
         vec := store_text_embedding st.vec newId (embed input.text_content)
                  (mkPayload input ts) },
       .ok (toMemoryResponse row))
    else
      ({ db := db2, vec := st.vec }, .error .serverError)

/-- The retrieve handler (server.py lines 635-672): 404 only when
`database_service.get_memory` returned no row. -/
def retrieve_memory (db : List MemoryRecord) (id now : Nat) :
    List MemoryRecord × Except ApiError MemoryResponse :=
  match get_memory db id now with
  | (db2, some m) => (db2, .ok (toMemoryResponse m))
  | (db2, none) => (db2, .error .notFound)

/-- The delete handler (server.py lines 691-727): relational tombstone
first (404 when it reports no row), then the best-effort vector
removal, whose failure is swallowed inside
`delete_memory_vectors`, so the handler still returns 204. -/
def delete_memory (st : Stores) (id now : Nat) (vecDeleteOk : Bool) :
    Stores × Except ApiError Unit :=
  let res := soft_delete_memory st.db id now
  if res.2 then
    ({ db := res.1, vec := delete_memory_vectors st.vec id vecDeleteOk }, .ok ())
  else
    ({ db := res.1, vec := st.vec }, .error .notFound)

/-- A row of the search response (server.py lines 488-502). -/
structure SearchResult where
  memory_id : Nat
  score : ℚ
  interface : String
  context : String
  what_happened : String
  experience_type : String
  emotion_primary : String
  emotion_intensity : ℚ
  importance_to_me : ℚ
  timestamp : Nat
  created_at : Nat
  modalities : List String
  privacy_realm : String
deriving DecidableEq

/-- A re-hydrated hit: the similarity score attached to the row
fetched from the relational store. -/
def toSearchResult (score : ℚ) (m : MemoryRecord) : SearchResult :=
  { memory_id := m.memory_id, score := score, interface := m.interface,
    context := m.context, what_happened := m.what_happened,
    experience_type := m.experience_type, emotion_primary := m.emotion_primary,
    emotion_intensity := m.emotion_intensity, importance_to_me := m.importance_to_me,
    timestamp := m.timestamp, created_at := m.created_at,
    modalities := m.modalities, privacy_realm := m.privacy_realm }

/-- The search handler (server.py lines 456-513): embed the query,
query the index forwarding only interface, privacy realm and minimum
importance (the accepted emotion and experience-type fields are never
passed on), then re-hydrate each hit in order through
`database_service.get_memory`, keeping it iff a row came back. The
access-count bump performed by each `get_memory` call touches only
bookkeeping fields that are neither copied into the result nor used by
the lookup, so re-hydration is modelled by the pure row lookup. -/
def search_memories (db : List MemoryRecord) (index : List VecEntry)
    (sim : List ℚ → ℚ) (s : MemorySearch) : List SearchResult :=
  (search_text_embeddings index sim s.limit s.interface s.privacy_realm
      s.min_importance).filterMap
    (fun h => (dbFind db h.memory_id).map (toSearchResult h.score))

-- ━━━━━━━━━━━━━━━━ Concrete stores for evaluations ━━━━━━━━━━━━━━━━

/-- A well-formed sample creation input used by concrete witnesses. -/
def sampleInput : MemoryCreateInput :=
  { interface := "vscode", context := "ctx", with_whom := none,
    what_happened := "wrote code", experience_type := "coding",
    emotion_primary := "joy", emotion_intensity := 1,
    importance_to_me := 1, importance_reasons := ["matters"],
    text_content := "some narrative", visual_path := none,
    audio_path := none, video_path := none, privacy_realm := "public",
    session_id := none }

/-- A tombstoned relational row (`should_forget = true`). -/
def tombRecord : MemoryRecord :=
  { memory_id := 1, interface := "vscode", context := "ctx",
    with_whom := none, what_happened := "secret",
    experience_type := "conversation", emotion_primary := "joy",
    emotion_intensity := 1, importance_to_me := 1,
    text_content := "secret narrative", privacy_realm := "public",
    timestamp := 10, created_at := 10, updated_at := 11,
    modalities := ["text"], session_id := 1, should_forget := true,
    accessed_count := 0, last_accessed := 0 }

/-- The stale vector-index point of `tombRecord`, left behind by a
failed or bypassed index delete. -/
def staleEntry : VecEntry :=
  { memory_id := 1, embedding := [1],
    payload := { interface := "vscode", experience_type := "conversation",
                 emotion_primary := "joy", emotion_intensity := 1,
                 importance_to_me := 1, privacy_realm := "public",
                 timestamp := 10 } }

/-- A live (untombstoned) copy of the sample row. -/
def liveRecord : MemoryRecord :=
  { tombRecord with should_forget := false }

/-- An older live row used for the tie-break evaluation. -/
def oldRec : MemoryRecord :=
  { liveRecord with memory_id := 1, timestamp := 10, created_at := 10 }

/-- A newer live row used for the tie-break evaluation. -/
def newRec : MemoryRecord :=
  { liveRecord with memory_id := 2, timestamp := 20, created_at := 20 }

/-- The stored payload of `staleEntry`, reused by the tie-break points. -/
def basePayload : VecPayload :=
  { interface := "vscode", experience_type := "conversation",
    emotion_primary := "joy", emotion_intensity := 1,
    importance_to_me := 1, privacy_realm := "public", timestamp := 10 }

/-- Index point of `oldRec`. -/
def oldEntry : VecEntry :=
  { memory_id := 1, embedding := [1], payload := basePayload }

/-- Index point of `newRec`. -/
def newEntry : VecEntry :=
  { memory_id := 2, embedding := [1],
    payload := { basePayload with timestamp := 20 } }

-- ━━━━━━━━━━━━━━━━━━━━━ Helper lemmas ━━━━━━━━━━━━━━━━━━━━━━━━━━━━━

instance (sim : List ℚ → ℚ) : IsTotal VecEntry (simDesc sim) :=
  ⟨fun a b => le_total (sim b.embedding) (sim a.embedding)⟩

instance (sim : List ℚ → ℚ) : IsTrans VecEntry (simDesc sim) :=
  ⟨fun _ _ _ h1 h2 => le_trans h2 h1⟩

/-- Pairwise facts survive `filterMap` whenever the mapping sends
related elements to related images. -/
theorem pairwise_filterMap_of {α β : Type} {R : α → α → Prop}
    {S : β → β → Prop} (f : α → Option β)
    (h : ∀ a b, R a b → ∀ x, f a = some x → ∀ y, f b = some y → S x y) :
    ∀ l : List α, l.Pairwise R → (l.filterMap f).Pairwise S
  | [], _ => by simp
  | a :: l, hp => by
    rw [List.filterMap_cons]
    cases hl : f a with
    | none => exact pairwise_filterMap_of f h l hp.of_cons
    | some x =>
      refine List.Pairwise.cons ?_ (pairwise_filterMap_of f h l hp.of_cons)
      intro y hy
      obtain ⟨b, hb, hfb⟩ := List.mem_filterMap.mp hy
      exact h a b (List.rel_of_pairwise_cons hp hb) x hl y hfb

/-- Re-hydration copies the similarity score of the hit unchanged. -/
theorem rehydrate_score (db : List MemoryRecord) (h : VecHit)
    (x : SearchResult)
    (hx : (dbFind db h.memory_id).map (toSearchResult h.score) = some x) :
    x.score = h.score := by
  cases hm : dbFind db h.memory_id with
  | none =>
    rw [hm] at hx
    exact Option.noConfusion hx
  | some m =>
    rw [hm] at hx
    rw [← Option.some.inj hx]
    rfl

-- ━━━━━━━━━━━━━━━━━━━━━ Claim theorems ━━━━━━━━━━━━━━━━━━━━━━━━━━━━

/-- C10: two search requests that are identical except in their
emotion and experience-type fields produce identical results — those
two accepted request fields are never forwarded to the index filter or
to the re-hydration step. -/
theorem search_ignores_emotion_and_experience_type
    (db : List MemoryRecord) (index : List VecEntry) (sim : List ℚ → ℚ)
    (q : String) (i pr : Option String) (mi : Option ℚ) (lim : Nat)
    (e1 e2 t1 t2 : Option String) :
    search_memories db index sim ⟨q, i, t1, e1, mi, pr, lim⟩ =
      search_memories db index sim ⟨q, i, t2, e2, mi, pr, lim⟩ := rfl

/-- C5: soft delete sets the tombstone only on a row not already
tombstoned; it reports `true` exactly when some live row carried the
identifier (so `false`, not an error, for missing or already-deleted
records); rows already tombstoned are left untouched; and a second
soft delete of the same identifier always reports `false`. -/
theorem soft_delete_noop_semantics
    (db : List MemoryRecord) (id now now2 : Nat) :
    ((soft_delete_memory db id now).2 = true ↔
      ∃ r ∈ db, r.memory_id = id ∧ r.should_forget = false) ∧
    (∀ r ∈ db, r.should_forget = true →
      r ∈ (soft_delete_memory db id now).1) ∧
    (soft_delete_memory (soft_delete_memory db id now).1 id now2).2 = false := by
  refine ⟨?_, ?_, ?_⟩
  · simp [soft_delete_memory, List.any_eq_true, Bool.and_eq_true,
      Bool.not_eq_true']
  · intro r hr hsf
    have h2 := List.mem_map_of_mem (fun r : MemoryRecord =>
      if r.memory_id == id && !r.should_forget then
        { r with should_forget := true, updated_at := now } else r) hr
    simpa [soft_delete_memory, hsf] using h2
  · simp only [soft_delete_memory]
    rw [List.any_map, List.any_eq_false]
    intro r _
    by_cases hc : (r.memory_id == id && !r.should_forget) = true
    · simp [Function.comp, hc]
    · simp [Function.comp, hc]

/-- C8: when the embedding call fails (the provider is not ready), a
creation request that passed validation aborts with an error before
either store is touched: the returned state is exactly the input
state. -/
theorem create_aborts_before_stores_on_embedding_failure
    (st : Stores) (input : MemoryCreateInput) (embed : String → List ℚ)
    (vecOk : Bool) (newId sid ts now : Nat)
    (hval : validateMemoryCreate input = true) :
    create_memory st input embed false vecOk newId sid ts now =
      (st, .error .serverError) := by
  simp [create_memory, hval]

/-- Witness for C8 at a concrete valid input and empty stores. -/
theorem create_aborts_before_stores_on_embedding_failure_witness :
    create_memory ⟨[], []⟩ sampleInput (fun _ => [1]) false true 1 1 0 0 =
      (⟨[], []⟩, .error .serverError) :=
  create_aborts_before_stores_on_embedding_failure ⟨[], []⟩ sampleInput
    (fun _ => [1]) true 1 1 0 0 (by decide)

/-- C1 (evaluation of the defect): with a tombstoned row whose stale
index point is still present, the hybrid search returns that record —
the re-hydration lookup selects by id only and never checks
`should_forget`, so the claimed exclusion invariant fails. -/
theorem search_returns_tombstoned_record :
    tombRecord.should_forget = true ∧
    (search_memories [tombRecord] [staleEntry] (fun _ => 1)
        ⟨"anything", none, none, none, none, none, 10⟩).map
      (fun r => r.memory_id) = [1] := by
  constructor
  · rfl
  · decide

/-- C3 (evaluation of the defect): creating a record, soft-deleting
it, then retrieving it by id succeeds with the full record instead of
failing with NotFound, because the retrieval SELECT has no
`should_forget` condition; every row of the store is tombstoned at
that point. -/
theorem retrieve_after_soft_delete_succeeds :
    (retrieve_memory
        (delete_memory
          ((create_memory ⟨[], []⟩ sampleInput (fun _ => [1]) true true
              1 1 0 0).1) 1 5 true).1.db 1 6).2.isOk = true ∧
    ∀ r ∈ (delete_memory
        ((create_memory ⟨[], []⟩ sampleInput (fun _ => [1]) true true
            1 1 0 0).1) 1 5 true).1.db, r.should_forget = true := by
  constructor
  · decide
  · decide

/-- C4 (evaluation of the defect): on a store holding one tombstoned
record and an empty filter set, the recent-listing path returns the
tombstoned record while the filtered-listing path excludes it — the
two non-semantic listing paths disagree, and ListRecent violates the
claimed tombstone exclusion. -/
theorem recent_listing_includes_tombstoned :
    tombRecord.should_forget = true ∧
    (get_recent_memories [tombRecord] 10 0 none none).map
      (fun r => r.memory_id) = [1] ∧
    list_memories [tombRecord] 50 0 ⟨none, none, none, none, none, none⟩ = [] := by
  refine ⟨rfl, by decide, by decide⟩

/-- An input violating the validation rules the claim asserts (empty
narrative text, privacy classification outside the enumerated set)
while respecting the two scalar bounds the code actually checks. -/
def invalidPerSpecInput : MemoryCreateInput :=
  { sampleInput with text_content := "", privacy_realm := "martian" }

/-- C7 counterexample: a creation input with empty narrative text and
a privacy classification outside {public, private} passes validation,
and Create performs its writes and succeeds instead of failing with
ValidationError. -/
theorem create_accepts_empty_text_and_odd_privacy :
    invalidPerSpecInput.text_content = "" ∧
    invalidPerSpecInput.privacy_realm ∉ (["public", "private"] : List String) ∧
    (create_memory ⟨[], []⟩ invalidPerSpecInput (fun _ => [1]) true true
        1 1 0 0).2.isOk = true ∧
    (create_memory ⟨[], []⟩ invalidPerSpecInput (fun _ => [1]) true true
        1 1 0 0).1.db ≠ [] := by
  refine ⟨rfl, by decide, by decide, by decide⟩

/-- C7 amended: Create fails with ValidationError — performing no
write, the returned state being exactly the input state — precisely
when the emotion intensity or the importance scalar lies outside
[0,1]; the narrative text may be empty and the privacy classification
is an unconstrained string. -/
theorem create_validation_iff_bounds
    (st : Stores) (input : MemoryCreateInput) (embed : String → List ℚ)
    (embedOk vecOk : Bool) (newId sid ts now : Nat) :
    create_memory st input embed embedOk vecOk newId sid ts now =
        (st, .error .validation) ↔
      ¬(0 ≤ input.emotion_intensity ∧ input.emotion_intensity ≤ 1 ∧
        0 ≤ input.importance_to_me ∧ input.importance_to_me ≤ 1) := by
  by_cases hv : validateMemoryCreate input = true
  · have hb : 0 ≤ input.emotion_intensity ∧ input.emotion_intensity ≤ 1 ∧
        0 ≤ input.importance_to_me ∧ input.importance_to_me ≤ 1 := by
      have h := hv
      simp only [validateMemoryCreate, Bool.and_eq_true, decide_eq_true_eq] at h
      exact ⟨h.1.1, h.1.2, h.2.1, h.2.2⟩
    constructor
    · intro he
      exfalso
      cases hE : embedOk <;> cases hV : vecOk <;>
        simp [create_memory, hv, hE, hV, Prod.ext_iff] at he
    · intro hnb
      exact absurd hb hnb
  · have hnv : validateMemoryCreate input = false := by
      cases h : validateMemoryCreate input
      · rfl
      · exact absurd h hv
    have hb : ¬(0 ≤ input.emotion_intensity ∧ input.emotion_intensity ≤ 1 ∧
        0 ≤ input.importance_to_me ∧ input.importance_to_me ≤ 1) := by
      intro hc
      apply hv
      simp only [validateMemoryCreate, Bool.and_eq_true, decide_eq_true_eq]
      exact ⟨⟨hc.1, hc.2.1⟩, hc.2.2.1, hc.2.2.2⟩
    simp [create_memory, hnv, hb]

/-- C2 counterexample: with the relational write succeeded and the
vector upsert failing, the create handler reports an overall HTTP-500
error to the caller — not the claimed degraded success (the response
model carries no indexed flag at all). -/
theorem create_vector_failure_returns_error :
    (create_memory ⟨[], []⟩ sampleInput (fun _ => [1]) true false 1 1 0 0).2 =
      .error .serverError := by
  norm_num [create_memory, validateMemoryCreate, sampleInput]

/-- C2 amended: when the vector-index upsert fails after the
relational write, the relational write is not rolled back — the new
row is appended to the relational store and retrievable by its
identifier, and the vector index is unchanged — but the handler
reports an overall error to the caller instead of a degraded success
response. -/
theorem create_vector_failure_keeps_relational_write
    (st : Stores) (input : MemoryCreateInput) (embed : String → List ℚ)
    (newId sid ts now : Nat)
    (hval : validateMemoryCreate input = true)
    (hfresh : ∀ r ∈ st.db, r.memory_id ≠ newId) :
    (create_memory st input embed true false newId sid ts now).1.db =
        st.db ++ [mkRecord input newId sid ts now] ∧
    (create_memory st input embed true false newId sid ts now).1.vec = st.vec ∧
    dbFind (create_memory st input embed true false newId sid ts now).1.db
        newId = some (mkRecord input newId sid ts now) ∧
    (create_memory st input embed true false newId sid ts now).2 =
      .error .serverError := by
  have h1 : create_memory st input embed true false newId sid ts now =
      ({ db := st.db ++ [mkRecord input newId sid ts now], vec := st.vec },
        .error .serverError) := by
    simp [create_memory, hval]
  refine ⟨by rw [h1], by rw [h1], ?_, by rw [h1]⟩
  rw [h1]
  show dbFind (st.db ++ [mkRecord input newId sid ts now]) newId = _
  rw [dbFind, List.find?_append]
  have hnone : st.db.find? (fun r => r.memory_id == newId) = none :=
    List.find?_eq_none.mpr (fun r hr => by simp [hfresh r hr])
  rw [hnone]
  simp [List.find?, mkRecord]

/-- Witness for the amended C2 at a concrete valid input and empty
stores. -/
theorem create_vector_failure_keeps_relational_write_witness :
    (create_memory ⟨[], []⟩ sampleInput (fun _ => [1]) true false 1 1 0 0).1.db =
        [] ++ [mkRecord sampleInput 1 1 0 0] ∧
    (create_memory ⟨[], []⟩ sampleInput (fun _ => [1]) true false 1 1 0 0).1.vec =
        [] ∧
    dbFind (create_memory ⟨[], []⟩ sampleInput (fun _ => [1]) true false
        1 1 0 0).1.db 1 = some (mkRecord sampleInput 1 1 0 0) ∧
    (create_memory ⟨[], []⟩ sampleInput (fun _ => [1]) true false 1 1 0 0).2 =
      .error .serverError :=
  create_vector_failure_keeps_relational_write ⟨[], []⟩ sampleInput
    (fun _ => [1]) 1 1 0 0 (by decide) (by simp)

/-- C9: if the relational tombstone succeeded and the best-effort
vector delete then fails, the delete handler still reports success,
the tombstone stands (every row carrying the identifier remains
tombstoned), and the stale index point is simply left in place. -/
theorem tombstone_stands_when_vector_delete_fails
    (st : Stores) (id now : Nat)
    (hdel : (soft_delete_memory st.db id now).2 = true) :
    delete_memory st id now false =
      ({ db := (soft_delete_memory st.db id now).1, vec := st.vec }, .ok ()) ∧
    ∀ r ∈ (soft_delete_memory st.db id now).1, r.memory_id = id →
      r.should_forget = true := by
  constructor
  · simp [delete_memory, hdel, delete_memory_vectors]
  · intro r hr hid
    simp only [soft_delete_memory, List.mem_map] at hr
    obtain ⟨r0, hr0, hmap⟩ := hr
    by_cases hc : (r0.memory_id == id && !r0.should_forget) = true
    · rw [← hmap, if_pos hc]
    · rw [← hmap, if_neg hc] at hid ⊢
      simp only [hid, beq_self_eq_true, Bool.true_and, Bool.not_eq_true] at hc
      simpa using hc

/-- Witness for C9 at a concrete store holding one live record whose
index point survives the failed delete. -/
theorem tombstone_stands_when_vector_delete_fails_witness :
    (soft_delete_memory [liveRecord] 1 5).2 = true ∧
    (delete_memory ⟨[liveRecord], [staleEntry]⟩ 1 5 false =
        ({ db := (soft_delete_memory [liveRecord] 1 5).1,
           vec := [staleEntry] }, .ok ()) ∧
      ∀ r ∈ (soft_delete_memory [liveRecord] 1 5).1, r.memory_id = 1 →
        r.should_forget = true) :=
  ⟨by decide,
   tombstone_stands_when_vector_delete_fails ⟨[liveRecord], [staleEntry]⟩ 1 5
     (by decide)⟩

/-- C6 counterexample: two hits with equal similarity scores are
returned with the older record first (the index order), so the result
is neither strictly ordered by score nor tie-broken toward the more
recent timestamp. -/
theorem search_ties_not_broken_by_timestamp :
    (search_memories [oldRec, newRec] [oldEntry, newEntry] (fun _ => 1)
        ⟨"q", none, none, none, none, none, 10⟩).map
      (fun r => (r.score, r.timestamp)) = [(1, 10), (1, 20)] ∧
    ¬ List.Sorted (fun a b : SearchResult =>
        b.score < a.score ∨ (b.score = a.score ∧ b.timestamp ≤ a.timestamp))
      (search_memories [oldRec, newRec] [oldEntry, newEntry] (fun _ => 1)
        ⟨"q", none, none, none, none, none, 10⟩) := by
  constructor
  · decide
  · decide

/-- C6 amended: search returns at most limit results; the result list
is sorted non-strictly by descending similarity score, equal scores
staying in the order the index returned them (no timestamp
tie-break); and the results never outnumber the single page of hits
fetched from the index — discarded hits shrink the result instead of
triggering any re-query. -/
theorem search_limit_and_order
    (db : List MemoryRecord) (index : List VecEntry) (sim : List ℚ → ℚ)
    (s : MemorySearch) :
    (search_memories db index sim s).length ≤ s.limit ∧
    List.Sorted (fun a b : SearchResult => b.score ≤ a.score)
      (search_memories db index sim s) ∧
    (search_memories db index sim s).length ≤
      (search_text_embeddings index sim s.limit s.interface s.privacy_realm
        s.min_importance).length := by
  refine ⟨?_, ?_, List.length_filterMap_le _ _⟩
  · calc (search_memories db index sim s).length
        ≤ (search_text_embeddings index sim s.limit s.interface
            s.privacy_realm s.min_importance).length :=
          List.length_filterMap_le _ _
      _ = (qdrantSearch index sim
            (vecFilter s.interface s.privacy_realm s.min_importance)
            s.limit).length := List.length_map _ _
      _ ≤ s.limit := List.length_take_le _ _
  · have hsorted : List.Sorted (simDesc sim)
        (qdrantSearch index sim
          (vecFilter s.interface s.privacy_realm s.min_importance) s.limit) :=
      List.Pairwise.sublist (List.take_sublist _ _)
        (List.sorted_insertionSort (simDesc sim) _)
    have hhits : List.Pairwise (fun a b : VecHit => b.score ≤ a.score)
        (search_text_embeddings index sim s.limit s.interface s.privacy_realm
          s.min_importance) :=
      List.pairwise_map.mpr hsorted
    exact pairwise_filterMap_of _
      (fun a b hab x hx y hy => by
        rw [rehydrate_score db a x hx, rehydrate_score db b y hy]
        exact hab) _ hhits

end Enclave
